import Mathlib

/-!
Shallow embedding of the crowdfunding fraud scorer in
`backend/services/fraudDetection.js` (class `FraudDetectionService`), together
with proofs about the properties stated in the specification.

Numbers: JavaScript numerics are modelled with `ℚ`; every literal appearing in
the source is exactly representable, and all arithmetic the analyzers perform
(sums of small integers, fixed-weight products, ratio comparisons) is exact in
double precision on the value ranges involved, so `ℚ` is faithful.  A JS
comparison against `NaN` is false; the places where the source can produce
`NaN` (ratios with a zero denominator) are noted at the relevant definitions,
and `ℚ` division by zero (which yields 0) gives the same branch outcome there
except where an explicit guard is added with a comment.

Strings are modelled as `String` / `List Char`; the inputs considered are
ASCII, for which `Char.toLower` agrees with JS `toLowerCase`.
-/

set_option maxRecDepth 8000

namespace FundSure

/-- JS `Math.min` on the values arising here (never NaN), written as the
conditional so that kernel evaluation reduces it. -/
def jsMin (a b : ℚ) : ℚ := if a ≤ b then a else b

/-- JS `Math.max`, written as the conditional. -/
def jsMax (a b : ℚ) : ℚ := if a ≤ b then b else a

/-- JS `Math.abs`, written as the conditional. -/
def jsAbs (a : ℚ) : ℚ := if a < 0 then -a else a

theorem jsMin_eq_min (a b : ℚ) : jsMin a b = min a b := (min_def a b).symm

theorem jsMax_eq_max (a b : ℚ) : jsMax a b = max a b := (max_def a b).symm

theorem le_jsMin {a b c : ℚ} (h1 : c ≤ a) (h2 : c ≤ b) : c ≤ jsMin a b := by
  unfold jsMin; split <;> assumption

theorem jsMin_mono_left {a b : ℚ} (c : ℚ) (h : a ≤ b) : jsMin a c ≤ jsMin b c := by
  unfold jsMin; split <;> split <;> linarith

theorem le_jsMax_left {a b : ℚ} (h : a ≤ b) (c : ℚ) : a ≤ jsMax b c := by
  unfold jsMax; split <;> linarith

theorem le_jsMax_right {a b : ℚ} (h : a ≤ b) (c : ℚ) : a ≤ jsMax c b := by
  unfold jsMax; split <;> linarith

theorem jsMax_zero_of_nonneg {a : ℚ} (h : 0 ≤ a) : jsMax a 0 = a := by
  unfold jsMax; split <;> linarith

/-- JS `String.prototype.toLowerCase` restricted to ASCII input, as a character list. -/
def lowerChars (s : String) : List Char := s.data.map Char.toLower

/-- character class `[A-Z]` of the capitalization regex. -/
def isUpperAZ (c : Char) : Bool := 'A' ≤ c && c ≤ 'Z'

/-- character class `[a-z]`. -/
def isLowerAZ (c : Char) : Bool := 'a' ≤ c && c ≤ 'z'

/-- regex digit class `\d` (ASCII). -/
def isDigitC (c : Char) : Bool := '0' ≤ c && c ≤ '9'

/-- regex word-character class `\w` = `[A-Za-z0-9_]`, used for `\b` boundaries. -/
def isWordChar (c : Char) : Bool := isUpperAZ c || isLowerAZ c || isDigitC c || c = '_'

/-- regex whitespace class `\s` on the ASCII range. -/
def isJsWS (c : Char) : Bool :=
  c = ' ' || c = '\t' || c = '\n' || c = '\r' || c = '\x0b' || c = '\x0c'

/-- the sentence-terminator class `[.!?]` of the story analyzer. -/
def isSentenceEnd (c : Char) : Bool := c = '.' || c = '!' || c = '?'

/-- the punctuation class `[!?]` of the title analyzer. -/
def isBang (c : Char) : Bool := c = '!' || c = '?'

/-- JS `s.split(re)` where `re` is a character class followed by `+`: the input
is cut at every maximal run of separator characters, and (as in JS) a separator
run touching either end of the string contributes an empty piece, while the
split of the empty string is `[""]`. -/
def splitRuns (p : Char → Bool) : List Char → List (List Char)
  | [] => [[]]
  | c :: cs =>
    let r := splitRuns p cs
    if p c then
      match cs with
      | c2 :: _ => if p c2 then r else [] :: r
      | [] => [] :: r
    else
      (c :: r.headD []) :: r.tail

/-- lengths of the maximal runs of characters satisfying `p`; used for the
`[!?]{2}` and `[!?]{3,}` global counts of the title analyzer. -/
def runLens (p : Char → Bool) : List Char → List Nat
  | [] => []
  | c :: cs =>
    let r := runLens p cs
    if p c then
      match cs with
      | c2 :: _ => if p c2 then (r.headD 0 + 1) :: r.tail else 1 :: r
      | [] => [1]
    else r

/-- JS `String.prototype.trim` on the ASCII range. -/
def trimJS (cs : List Char) : List Char :=
  ((cs.dropWhile isJsWS).reverse.dropWhile isJsWS).reverse

/-- JS `String.prototype.includes`: substring test. -/
def containsSub (hay : List Char) (needle : String) : Bool :=
  hay.tails.any fun t => needle.data.isPrefixOf t

/-- regex tokens covering every pattern literal appearing in the analyzers:
a literal string, an optional single character (`\$?`), exactly one character
of a class, one-or-more of a class (`\d+`, `[...]+`), and zero-or-more of a
class (`.*` is zero-or-more of the not-a-line-terminator class). -/
inductive RTok where
  | lit : List Char → RTok
  | optc : Char → RTok
  | one : (Char → Bool) → RTok
  | plus : (Char → Bool) → RTok
  | star : (Char → Bool) → RTok

/-- backtracking matcher: can the token list consume a prefix of the input?
For these patterns (no nested groups or alternation) trying every split of the
leading class-run is exactly regex match-existence semantics. -/
def matchToks : List RTok → List Char → Bool
  | [], _ => true
  | .lit l :: ts, cs => l.isPrefixOf cs && matchToks ts (cs.drop l.length)
  | .optc c :: ts, cs =>
    matchToks ts cs ||
      (match cs with
       | d :: rest => d = c && matchToks ts rest
       | [] => false)
  | .one p :: ts, cs =>
    (match cs with
     | d :: rest => p d && matchToks ts rest
     | [] => false)
  | .plus p :: ts, cs =>
    (List.range (cs.takeWhile p).length).any fun k => matchToks ts (cs.drop (k + 1))
  | .star p :: ts, cs =>
    (List.range ((cs.takeWhile p).length + 1)).any fun k => matchToks ts (cs.drop k)

/-- JS `RegExp.prototype.test`: does the pattern match starting at any position?
Case-insensitive patterns are run on lowercased text with lowercase literals. -/
def regexTest (ts : List RTok) (cs : List Char) : Bool :=
  cs.tails.any (matchToks ts)

/-- regex `.` is any character except a line terminator; `dotStar` is `.*`. -/
def dotStar : RTok := .star fun c => !(c = '\n' || c = '\r')

/-- one alternative of the relative-time regex of the story analyzer, as a
literal together with the trailing `\b` check (every alternative ends in a
word character, so the boundary holds iff the next character is not a word
character or the input ends). -/
def tryTimeLit (l : List Char) (cs : List Char) : Option Nat :=
  if l.isPrefixOf cs then
    match cs.drop l.length with
    | [] => some l.length
    | d :: _ => if isWordChar d then none else some l.length
  else none

/-- the alternation `yesterday|today|last week|last month|years? ago|months? ago|days? ago`
tried in source order; `s?` is greedy, so the `s` variant is tried first. -/
def timeAltLen (cs : List Char) : Option Nat :=
  (tryTimeLit "yesterday".data cs).orElse fun _ =>
  (tryTimeLit "today".data cs).orElse fun _ =>
  (tryTimeLit "last week".data cs).orElse fun _ =>
  (tryTimeLit "last month".data cs).orElse fun _ =>
  (tryTimeLit "years ago".data cs).orElse fun _ =>
  (tryTimeLit "year ago".data cs).orElse fun _ =>
  (tryTimeLit "months ago".data cs).orElse fun _ =>
  (tryTimeLit "month ago".data cs).orElse fun _ =>
  (tryTimeLit "days ago".data cs).orElse fun _ =>
  (tryTimeLit "day ago".data cs)

/-- left-to-right non-overlapping global scan counting matches of
`\b(yesterday|...|days? ago)\b`; `prev` is the character before the current
position (for the leading `\b`).  Fuel is the remaining input length: every
step consumes at least one character. -/
def timeGo : Nat → Option Char → List Char → Nat
  | 0, _, _ => 0
  | _, _, [] => 0
  | fuel + 1, prev, c :: rest =>
    let boundary := match prev with
      | none => true
      | some p => !isWordChar p
    match (if boundary then timeAltLen (c :: rest) else none) with
    | some len =>
      1 + timeGo fuel (some ((c :: rest).getD (len - 1) c)) ((c :: rest).drop len)
    | none => timeGo fuel (some c) rest

/-- number of matches of the global case-insensitive relative-time regex
(`story.match(...) || []` then `.length`), run on lowercased text. -/
def timeWordCount (cs : List Char) : Nat := timeGo cs.length none cs

/-! ## Title analyzer (`analyzeTitleFraud`, source lines 95-191) -/

/-- the `criticalWords` list of the title analyzer. -/
def criticalWords : List String :=
  ["guaranteed money", "easy cash", "investment opportunity", "get rich quick",
   "wire transfer", "paypal only", "no questions asked", "act fast",
   "limited time offer", "secret method", "exclusive deal", "make money fast"]

/-- the `highRiskWords` list of the title analyzer. -/
def highRiskWords : List String :=
  ["urgent", "emergency", "immediate", "desperate", "bankruptcy",
   "last chance", "dying", "save me", "help me please"]

/-- the `emotionalWords` list of the title analyzer. -/
def emotionalWords : List String :=
  ["please help", "cancer", "accident", "tragedy", "victim",
   "homeless", "starving", "abandoned", "orphan"]

/-- the five `scamPatterns` regexes, case-insensitive, encoded over tokens. -/
def scamPatterns : List (List RTok) :=
  [[.lit "need ".data, .optc '$', .plus isDigitC, dotStar, .lit "urgent".data],
   [.lit "help".data, dotStar, .optc '$', .plus isDigitC, dotStar, .lit "emergency".data],
   [.lit "please".data, dotStar, .lit "send".data, dotStar, .lit "money".data],
   [.lit "donate".data, dotStar, .lit "save".data, dotStar, .lit "life".data],
   [.lit "only".data, dotStar, .optc '$', .plus isDigitC, dotStar, .lit "left".data]]

/-- every signal the title analyzer reads from the title text.  Each `forEach`
over a fixed phrase list adding a constant per present phrase contributes
exactly `constant * count`, so the analyzer is the fixed arithmetic
`titleRawScore` applied to these counts. -/
structure TitleFeatures where
  criticalCount : ℕ
  highRiskCount : ℕ
  emotionalCount : ℕ
  capsCount : ℕ
  length : ℕ
  tripleRunCount : ℕ
  doublePairCount : ℕ
  scamCount : ℕ
deriving DecidableEq, Repr

/-- extraction of the title signals: keyword-presence counts on the lowercased
title, the `[A-Z]` count, the length, the count of `[!?]{3,}` matches (maximal
punctuation runs of length at least 3), the count of `[!?]{2}` global matches
(each maximal run of length n yields n / 2 of them), and how many of the five
scam regexes match. -/
def extractTitleFeatures (title : String) : TitleFeatures :=
  let lower := lowerChars title
  { criticalCount := (criticalWords.filter fun w => containsSub lower w).length
    highRiskCount := (highRiskWords.filter fun w => containsSub lower w).length
    emotionalCount := (emotionalWords.filter fun w => containsSub lower w).length
    capsCount := (title.data.filter isUpperAZ).length
    length := title.data.length
    tripleRunCount := ((runLens isBang title.data).filter fun n => 3 ≤ n).length
    doublePairCount := ((runLens isBang title.data).map fun n => n / 2).sum
    scamCount := (scamPatterns.filter fun p => regexTest p lower).length }

/-- the title score before the final clamp, as the sum the source accumulates:
40 per critical keyword, 25 per high-risk word, the tiered emotional bonus, the
caps-percentage bonus (`capsCount / title.length`; for the empty title the JS
value is NaN, every comparison is false, and the rational value 0 gives the
same branches), the punctuation bonus, the length bonus, 18 per scam pattern. -/
def titleRawScore (f : TitleFeatures) : ℚ :=
  40 * f.criticalCount + 25 * f.highRiskCount
    + (if 2 < f.emotionalCount then 20 else if 0 < f.emotionalCount then 8 else 0)
    + (if (1 : ℚ) / 2 < (f.capsCount : ℚ) / (f.length : ℚ) ∧ 10 < f.length then 20
       else if (3 : ℚ) / 10 < (f.capsCount : ℚ) / (f.length : ℚ) then 12
       else if (1 : ℚ) / 5 < (f.capsCount : ℚ) / (f.length : ℚ) then 6 else 0)
    + (if 0 < f.tripleRunCount then 15
       else if 1 < f.doublePairCount then 10
       else if 0 < f.doublePairCount then 5 else 0)
    + (if f.length < 10 then 15 else if 200 < f.length then 12 else 0)
    + 18 * f.scamCount

/-- `analyzeTitleFraud`: the accumulated score clamped by `Math.min(score, 100)`. -/
def analyzeTitleFraud (title : String) : ℚ :=
  jsMin (titleRawScore (extractTitleFeatures title)) 100

/-! ## Description analyzer (`analyzeDescriptionFraud`, source lines 194-273) -/

/-- the `fraudPhrases` list of the description analyzer. -/
def fraudPhrases : List String :=
  ["send money", "wire transfer", "paypal only", "cash only",
   "no questions asked", "trust me", "guaranteed return",
   "act fast", "limited time", "secret method", "exclusive opportunity",
   "contact me privately", "send to my account", "western union"]

/-- character class `[a-z0-9._%+-]` of the e-mail regex. -/
def emailLocalChar (c : Char) : Bool :=
  isLowerAZ c || isDigitC c || c = '.' || c = '_' || c = '%' || c = '+' || c = '-'

/-- character class `[a-z0-9.-]` of the e-mail regex. -/
def emailDomainChar (c : Char) : Bool :=
  isLowerAZ c || isDigitC c || c = '.' || c = '-'

/-- the four `financialPatterns` regexes; `[a-z]{2,}` is one `[a-z]` then
one-or-more `[a-z]`. -/
def financialPatterns : List (List RTok) :=
  [[.lit "send".data, dotStar, .optc '$', .plus isDigitC],
   [.lit "paypal".data, dotStar, .plus emailLocalChar, .lit "@".data,
    .plus emailDomainChar, .lit ".".data, .one isLowerAZ, .plus isLowerAZ],
   [.lit "bank".data, dotStar, .lit "account".data, dotStar, .plus isDigitC],
   [.lit "donate".data, dotStar, .lit "directly".data]]

/-- the `genericPhrases` list of the description analyzer. -/
def genericPhrases : List String :=
  ["copy and paste", "share this post", "forward this message",
   "please share", "viral post", "help us reach", "spread the word"]

/-- `word.toLowerCase().replace(/[^a-z]/g, "")`. -/
def cleanWord (w : List Char) : List Char := (w.map Char.toLower).filter isLowerAZ

/-- `analyzeDescriptionFraud`.  `maxRepetition` is `Math.max` over the counts of
the cleaned words longer than 3 characters; with no such word the JS value is
negative infinity, and the sentinel 0 used here takes the same branches in the
two strict comparisons against 8 and 5.  The diversity denominator is the full
whitespace-split word list (including boundary empties), as in the source. -/
def analyzeDescriptionFraud (description : String) : ℚ :=
  let descLower := lowerChars description
  let words := splitRuns isJsWS description.data
  let cleaned := (words.map cleanWord).filter fun w => 3 < w.length
  let maxRepetition := (cleaned.map fun w => (cleaned.filter fun v => v == w).length).foldr max 0
  let uniqueCount := cleaned.dedup.length
  jsMin
    (25 * ((fraudPhrases.filter fun p => containsSub descLower p).length : ℚ)
      + 30 * ((financialPatterns.filter fun p => regexTest p descLower).length : ℚ)
      + (if description.data.length < 50 then 20
         else if description.data.length < 100 then 10 else 0)
      + (if 8 < maxRepetition then 20 else if 5 < maxRepetition then 10 else 0)
      + (if (uniqueCount : ℚ) / (words.length : ℚ) < (3 : ℚ) / 10 ∧ 50 < words.length
         then 15 else 0)
      + 20 * ((genericPhrases.filter fun p => containsSub descLower p).length : ℚ)) 100

/-! ## Story analyzer (`analyzeStoryFraud`, source lines 276-355) -/

/-- the `copiedPatterns` list of the story analyzer. -/
def copiedPatterns : List String :=
  ["copy and paste", "share this post", "forward this message",
   "please share", "viral post", "true story", "this really happened",
   "based on true events", "repost if you care"]

/-- the five `manipulationPatterns` regexes. -/
def manipulationPatterns : List (List RTok) :=
  [[.lit "please".data, dotStar, .lit "help".data, dotStar, .lit "dying".data],
   [.lit "only".data, dotStar, .optc '$', .plus isDigitC, dotStar, .lit "save".data],
   [.lit "time".data, dotStar, .lit "running".data, dotStar, .lit "out".data],
   [.lit "last".data, dotStar, .lit "chance".data],
   [.lit "desperate".data, dotStar, .lit "need".data]]

/-- `story.split(/[.!?]+/).filter(s => s.trim().length > 0)`. -/
def storySentences (story : String) : List (List Char) :=
  (splitRuns isSentenceEnd story.data).filter fun s => 0 < (trimJS s).length

/-- average word length of one half of the story: the half is split on
whitespace runs (boundary empties included, as JS produces them) and the
summed word lengths are divided by the piece count, which is never zero. -/
def avgWordLen (cs : List Char) : ℚ :=
  let ws := splitRuns isJsWS cs
  ((ws.map fun w => (w.length : ℚ)).sum) / (ws.length : ℚ)

/-- `story.split(/\n\s*\n/).length`.  The regex engine matches from the first
newline of a whitespace run to the last newline of that run (greedy `\s*`
backtracking to a final `\n`), so the piece count is one more than the number
of maximal whitespace runs containing at least two newlines. -/
def paragraphCount (cs : List Char) : ℕ :=
  1 + ((splitRuns (fun c => !isJsWS c) cs).filter
        fun run => 1 < (run.filter fun c => c = '\n').length).length

/-- `analyzeStoryFraud`: if no sentence survives the trim filter the source
returns 50 before any division; otherwise it accumulates the length, sentence
structure (the source also computes an unused `avgSentenceLength`), halves
style, copied-content, relative-time, manipulation and paragraph signals and
clamps at 100. -/
def analyzeStoryFraud (story : String) : ℚ :=
  let storyLower := lowerChars story
  let n := story.data.length
  let sentences := storySentences story
  if sentences.length = 0 then 50
  else
    let shortCount := (sentences.filter fun s => (trimJS s).length < 15).length
    let longCount := (sentences.filter fun s => 300 < (trimJS s).length).length
    let firstHalf := story.data.take (n / 2)
    let secondHalf := story.data.drop (n / 2)
    jsMin
      ((if n < 200 then 20 else if 5000 < n then 15 else 0)
        + (if (4 : ℚ) / 5 < (shortCount : ℚ) / (sentences.length : ℚ) then 15 else 0)
        + (if (sentences.length : ℚ) * (3 : ℚ) / 10 < (longCount : ℚ) then 15 else 0)
        + (if 3 < jsAbs (avgWordLen firstHalf - avgWordLen secondHalf) then 10 else 0)
        + 30 * ((copiedPatterns.filter fun p => containsSub storyLower p).length : ℚ)
        + (if 5 < timeWordCount storyLower then 10 else 0)
        + 15 * ((manipulationPatterns.filter fun p => regexTest p storyLower).length : ℚ)
        + (if paragraphCount story.data = 1 ∧ 1000 < n then 10 else 0)) 100

/-! ## Goal-amount analyzer (`analyzeAmountFraud`, source lines 358-418) -/

/-- one row of the `categoryLimits` table. -/
structure CategoryLimits where
  min : ℚ
  max : ℚ
  typical : ℚ
deriving DecidableEq

/-- the `categoryLimits` table with its default row for unknown categories. -/
def categoryLimits (category : String) : CategoryLimits :=
  if category = "Education" then ⟨500, 150000, 25000⟩
  else if category = "Medical" then ⟨1000, 750000, 50000⟩
  else if category = "Environment" then ⟨1000, 300000, 15000⟩
  else if category = "Animal Welfare" then ⟨200, 75000, 5000⟩
  else if category = "Disaster Relief" then ⟨5000, 2000000, 100000⟩
  else if category = "Sports" then ⟨500, 200000, 15000⟩
  else if category = "Elderly Care" then ⟨1000, 200000, 20000⟩
  else if category = "Child Welfare" then ⟨500, 150000, 10000⟩
  else if category = "Community" then ⟨1000, 100000, 15000⟩
  else if category = "Arts" then ⟨500, 100000, 8000⟩
  else ⟨1000, 100000, 20000⟩

/-- `x % k === 0` in JS for the positive moduli used here: `x` is an integral
multiple of `k`. -/
def isMultipleOf (x k : ℚ) : Bool := (x / k).den = 1

/-- the `suspiciousAmounts` blacklist. -/
def suspiciousAmounts : List ℚ := [9999, 99999, 1111, 2222, 3333, 4444, 5555]

/-- `analyzeAmountFraud`: range, round-number, typical-deviation and blacklist
signals, clamped at 100. -/
def analyzeAmountFraud (goalAmount : ℚ) (category : String) : ℚ :=
  let limits := categoryLimits category
  jsMin
    ((if limits.max * 3 < goalAmount then 40
      else if limits.max * (3 : ℚ) / 2 < goalAmount then 25
      else if limits.max < goalAmount then 15 else 0)
      + (if goalAmount < limits.min / 3 then 25
         else if goalAmount < limits.min then 15 else 0)
      + (if 100000 ≤ goalAmount ∧ isMultipleOf goalAmount 100000 then 15
         else if 10000 ≤ goalAmount ∧ isMultipleOf goalAmount 10000 then 10
         else if 1000 ≤ goalAmount ∧ isMultipleOf goalAmount 1000 then 5 else 0)
      + (if limits.typical * 5 < goalAmount then 20
         else if goalAmount < limits.typical / 10 then 10 else 0)
      + (if suspiciousAmounts.contains goalAmount then 20 else 0)) 100

/-! ## Creator-history analyzer (`analyzeCreatorHistory`, source lines 421-493)

The store query `Campaign.find({creator, createdAt ≥ now − 365 days})` is an
external collaborator; its response is modelled as an `Option (List
PastCampaign)` where `none` is a query failure (the exception the analyzer
catches, returning the fallback 20) and `some prev` is the returned record
list.  `now` is the fixed clock value `Date.now()` of the invocation, in
milliseconds, matching the `createdAt` timestamps. -/

/-- a record returned by the creator-history store query. -/
structure PastCampaign where
  status : String
  createdAt : ℚ
  goalAmount : ℚ
deriving DecidableEq

/-- milliseconds per day, the divisor `1000 * 60 * 60 * 24`. -/
def msPerDay : ℚ := 86400000

/-- the rejection-rate addition (`rejectionRate` tiers 50 / 35 / 20).  Only
called with a nonempty list, so the denominator is positive. -/
def rejectionTerm (prev : List PastCampaign) : ℚ :=
  let rate := ((prev.filter fun c => c.status == "rejected").length : ℚ) / (prev.length : ℚ)
  if (7 : ℚ) / 10 < rate then 50
  else if (1 : ℚ) / 2 < rate then 35
  else if (3 : ℚ) / 10 < rate then 20 else 0

/-- the campaign-frequency addition (last-7-days and last-30-days tiers). -/
def frequencyTerm (now : ℚ) (prev : List PastCampaign) : ℚ :=
  let last30 := (prev.filter fun c => (now - c.createdAt) / msPerDay < 30).length
  let last7 := (prev.filter fun c => (now - c.createdAt) / msPerDay < 7).length
  if 2 < last7 then 30 else if 5 < last30 then 25 else if 3 < last30 then 15 else 0

/-- the completion-rate addition, guarded by `totalFundable > 0`. -/
def completionTerm (prev : List PastCampaign) : ℚ :=
  let completed := (prev.filter fun c => c.status == "completed").length
  let active := (prev.filter fun c => c.status == "active").length
  let totalFundable := completed + active
  if 0 < totalFundable then
    let rate := (completed : ℚ) / (totalFundable : ℚ)
    if rate < (1 : ℚ) / 5 ∧ 3 < totalFundable then 20
    else if rate < (2 : ℚ) / 5 ∧ 2 < totalFundable then 10 else 0
  else 0

/-- the repeated-amounts addition: only when more than 2 campaigns were
returned, `sameAmounts` keeps the amounts occurring more than once (each
occurrence kept), and more than one survivor adds 15. -/
def creatorRepeatBonus (prev : List PastCampaign) : ℚ :=
  let amounts := prev.map (·.goalAmount)
  let sameAmounts := amounts.filter fun amount =>
    1 < (amounts.filter fun a => a == amount).length
  if 2 < prev.length ∧ 1 < sameAmounts.length then 15 else 0

/-- the three additions of the nonempty-history branch other than the
repeated-amounts bonus, in source order. -/
def creatorBaseTerms (now : ℚ) (prev : List PastCampaign) : ℚ :=
  rejectionTerm prev + frequencyTerm now prev + completionTerm prev

/-- `analyzeCreatorHistory`: 20 on a store failure (the catch branch), 15 for a
creator with no prior campaigns, otherwise the accumulated additions, clamped
by `Math.min(score, 100)`. -/
def analyzeCreatorHistory (now : ℚ) : Option (List PastCampaign) → ℚ
  | none => 20
  | some prev =>
    jsMin (if prev.length = 0 then 15
         else creatorBaseTerms now prev + creatorRepeatBonus prev) 100

/-! ## Pattern analyzer (`analyzePatterns`, source lines 496-554)

The store query for recent same-category campaigns by other creators is again
modelled as an `Option` list: `none` is a query failure (caught, fallback 5). -/

/-- a record returned by the recent-campaigns store query. -/
structure RecentCampaign where
  title : String
  description : String
  goalAmount : ℚ
deriving DecidableEq

/-- `s.toLowerCase().split(/\s+/).filter(w => w.length > k)`. -/
def longWords (s : String) (k : ℕ) : List (List Char) :=
  (splitRuns isJsWS (lowerChars s)).filter fun w => k < w.length

/-- `commonWords.length / Math.min(a.length, b.length)`: the candidate words
present in the comparison list (duplicates on the candidate side counted, as
`filter` plus `includes` does), divided by the smaller list length.  When both
lengths are 0 the JS value is NaN and every threshold comparison is false; the
rational value 0 takes the same branches. -/
def simFrac (cand comp : List (List Char)) : ℚ :=
  ((cand.filter fun w => comp.contains w).length : ℚ) / (Nat.min cand.length comp.length : ℚ)

/-- the title-similarity loop: 25 with an immediate `break` above 0.7, else 15
per campaign above 0.5. -/
def titleSimLoop (cand : List (List Char)) : List RecentCampaign → ℚ
  | [] => 0
  | c :: rest =>
    let r := simFrac cand (longWords c.title 3)
    if (7 : ℚ) / 10 < r then 25
    else if (1 : ℚ) / 2 < r then 15 + titleSimLoop cand rest
    else titleSimLoop cand rest

/-- the description-similarity loop: 30 with `break` above 0.6, else 20 per
campaign above 0.4. -/
def descSimLoop (cand : List (List Char)) : List RecentCampaign → ℚ
  | [] => 0
  | c :: rest =>
    let r := simFrac cand (longWords c.description 4)
    if (3 : ℚ) / 5 < r then 30
    else if (2 : ℚ) / 5 < r then 20 + descSimLoop cand rest
    else descSimLoop cand rest

/-- the amount-clustering addition: more than 3 recent campaigns within 10% of
the candidate goal add 15.  For a zero candidate goal the JS ratio is NaN or
infinite and the comparison is false, hence the explicit guard. -/
def clusterTerm (goalAmount : ℚ) (recents : List RecentCampaign) : ℚ :=
  let close := recents.filter fun c =>
    if goalAmount = 0 then false
    else jsAbs (c.goalAmount - goalAmount) / goalAmount < (1 : ℚ) / 10
  if 3 < close.length then 15 else 0

/-- `analyzePatterns`: 5 on a store failure, otherwise the three additions
clamped at 100. -/
def analyzePatterns (title description : String) (goalAmount : ℚ) :
    Option (List RecentCampaign) → ℚ
  | none => 5
  | some recents =>
    jsMin (titleSimLoop (longWords title 3) recents
          + descSimLoop (longWords description 4) recents
          + clusterTerm goalAmount recents) 100

/-! ## Aggregation (`calculateFraudScore`, source lines 39-92) -/

/-- the weighted sum of the six sub-scores with the weights of lines 43-50
(title 0.25, description 0.20, story 0.20, amount 0.15, creator 0.12,
patterns 0.08) plus the flat `baseRisk` 5 of lines 69-70. -/
def weightedTotal (t d s a c p : ℚ) : ℚ :=
  t * (25 : ℚ) / 100 + d * (20 : ℚ) / 100 + s * (20 : ℚ) / 100
    + a * (15 : ℚ) / 100 + c * (12 : ℚ) / 100 + p * (8 : ℚ) / 100 + 5

/-- `significantRisks`: how many sub-scores exceed 20. -/
def significantRiskCount (t d s a c p : ℚ) : ℕ :=
  ([t, d, s, a, c, p].filter fun x => 20 < x).length

/-- the amplification of lines 76-80: factor 1.3 with at least 3 significant
risks, 1.15 with at least 2. -/
def amplifiedTotal (t d s a c p : ℚ) : ℚ :=
  if 3 ≤ significantRiskCount t d s a c p then weightedTotal t d s a c p * (13 : ℚ) / 10
  else if 2 ≤ significantRiskCount t d s a c p then weightedTotal t d s a c p * (23 : ℚ) / 20
  else weightedTotal t d s a c p

/-- the first minimum-score floor of lines 82-85. -/
def flooredTotal35 (t d s a c p : ℚ) : ℚ :=
  if 30 < t ∨ 30 < d then jsMax (amplifiedTotal t d s a c p) 35
  else amplifiedTotal t d s a c p

/-- the second minimum-score floor of lines 87-89, applied after the first. -/
def flooredTotal (t d s a c p : ℚ) : ℚ :=
  if 25 < s ∧ (15 < t ∨ 15 < d) then jsMax (flooredTotal35 t d s a c p) 30
  else flooredTotal35 t d s a c p

/-- the aggregation arithmetic of `calculateFraudScore` over the six sub-scores,
ending with the clamp `Math.min(totalScore, 100)` of line 91. -/
def compositeOfSubScores (t d s a c p : ℚ) : ℚ :=
  jsMin (flooredTotal t d s a c p) 100

/-- the read-only external campaign store as seen by one invocation: the two
query responses, each `none` when the query throws. -/
structure StoreState where
  creatorCampaigns : Option (List PastCampaign)
  recentCampaigns : Option (List RecentCampaign)
deriving DecidableEq

/-- `calculateFraudScore` (lines 39-92): run the six analyzers on the campaign
fields and combine them with `compositeOfSubScores`. -/
def calculateFraudScore (now : ℚ) (st : StoreState)
    (title description story : String) (goalAmount : ℚ) (category : String) : ℚ :=
  compositeOfSubScores
    (analyzeTitleFraud title)
    (analyzeDescriptionFraud description)
    (analyzeStoryFraud story)
    (analyzeAmountFraud goalAmount category)
    (analyzeCreatorHistory now st.creatorCampaigns)
    (analyzePatterns title description goalAmount st.recentCampaigns)

/-! ## Result shaping (`getRiskLevel`, `getRecommendation`, `getConfidenceLevel`,
`getFraudIndicators`, `getDetailedRiskFactors`, source lines 556-750) -/

/-- `getRiskLevel` (lines 711-718). -/
def getRiskLevel (score : ℚ) : String :=
  if 50 ≤ score then "Critical"
  else if 35 ≤ score then "Very High"
  else if 25 ≤ score then "High"
  else if 18 ≤ score then "Medium"
  else if 12 ≤ score then "Low"
  else "Very Low"

/-- `getRecommendation` (lines 721-737). -/
def getRecommendation (score : ℚ) : String :=
  if 50 ≤ score then "REJECT IMMEDIATELY - Critical fraud indicators detected"
  else if 35 ≤ score then "REJECT - Very high fraud probability detected"
  else if 25 ≤ score then "MANUAL REVIEW REQUIRED - High risk factors present"
  else if 18 ≤ score then "DETAILED REVIEW RECOMMENDED - Medium risk detected"
  else if 12 ≤ score then "STANDARD REVIEW - Some concerns identified"
  else if 8 ≤ score then "QUICK REVIEW - Minor flags detected"
  else "APPROVE - Very low fraud risk"

/-- `getConfidenceLevel` (lines 740-750); the middle disjunction
`score >= 20 || score <= 20` is kept as written. -/
def getConfidenceLevel (score : ℚ) (indicatorCount : ℕ) : String :=
  if 3 ≤ indicatorCount ∧ (30 ≤ score ∨ score ≤ 15) then "High"
  else if 2 ≤ indicatorCount ∧ (20 ≤ score ∨ score ≤ 20) then "Medium"
  else if 1 ≤ indicatorCount then "Medium"
  else "Low"

/-- an entry of the indicator list. -/
structure Indicator where
  type : String
  severity : String
  score : ℚ
  description : String
deriving DecidableEq

/-- integer-valued rationals print like JS numbers; used only inside
human-readable descriptions. -/
def ratStr (q : ℚ) : String := if q.den = 1 then toString q.num else toString q

/-- `getTitleIssueDescription` (lines 624-642); the `score` parameter is unused
in the source as well. -/
def getTitleIssueDescription (score : ℚ) (title : String) : String :=
  let lower := lowerChars title
  let issues :=
    (if containsSub lower "urgent" || containsSub lower "emergency"
     then ["Contains urgency-based emotional appeals"] else [])
    ++ (if (3 : ℚ) / 10 <
          ((title.data.filter isUpperAZ).length : ℚ) / (title.data.length : ℚ)
        then ["Excessive use of capital letters"] else [])
    ++ (if 0 < ((runLens isBang title.data).filter fun n => 2 ≤ n).length
        then ["Excessive punctuation usage"] else [])
    ++ (if title.data.length < 10 then ["Title too short and vague"] else [])
  if issues.length = 0 then "Multiple suspicious elements detected in title"
  else String.intercalate "; " issues

/-- `getDescriptionIssueDescription` (lines 644-659). -/
def getDescriptionIssueDescription (score : ℚ) (description : String) : String :=
  let lower := lowerChars description
  let issues :=
    (if containsSub lower "send money" || containsSub lower "paypal"
     then ["Contains direct financial solicitation"] else [])
    ++ (if description.data.length < 100
        then ["Description too brief and lacks detail"] else [])
    ++ (if containsSub lower "trust me" || containsSub lower "guaranteed"
        then ["Uses trust-based or guarantee language"] else [])
  if issues.length = 0 then "Multiple concerning elements in description"
  else String.intercalate "; " issues

/-- `getStoryIssueDescription` (lines 661-678); with no sentences the JS ratio
is NaN, the comparison is false, and the rational 0 takes the same branch. -/
def getStoryIssueDescription (score : ℚ) (story : String) : String :=
  let sentences := storySentences story
  let shortCount := (sentences.filter fun s => (trimJS s).length < 15).length
  let issues :=
    (if story.data.length < 200 then ["Story too short for credible narrative"] else [])
    ++ (if containsSub (lowerChars story) "copy and paste"
        then ["Shows signs of copied content"] else [])
    ++ (if (7 : ℚ) / 10 < (shortCount : ℚ) / (sentences.length : ℚ)
        then ["Inconsistent sentence structure"] else [])
  if issues.length = 0 then "Story shows potential fabrication indicators"
  else String.intercalate "; " issues

/-- `getAmountIssueDescription` (lines 680-688). -/
def getAmountIssueDescription (score : ℚ) (amount : ℚ) (category : String) : String :=
  if 30 < score then
    "Amount " ++ ratStr amount ++ " is significantly outside normal range for "
      ++ category ++ " campaigns"
  else if 20 < score then
    "Amount " ++ ratStr amount ++ " is higher than typical for " ++ category ++ " category"
  else
    "Amount " ++ ratStr amount ++ " shows some inconsistency with " ++ category ++ " campaigns"

/-- `getFraudIndicators` (lines 557-621): re-runs the analyzers (they are
deterministic, so the values agree with the aggregation pass) and pushes one
indicator per analyzer whose sub-score passes its gate. -/
def getFraudIndicators (now : ℚ) (st : StoreState)
    (title description story : String) (goalAmount : ℚ) (category : String) :
    List Indicator :=
  let titleScore := analyzeTitleFraud title
  let descScore := analyzeDescriptionFraud description
  let storyScore := analyzeStoryFraud story
  let amountScore := analyzeAmountFraud goalAmount category
  let creatorScore := analyzeCreatorHistory now st.creatorCampaigns
  let patternScore := analyzePatterns title description goalAmount st.recentCampaigns
  (if 15 < titleScore then
    [{ type := "Title Analysis"
       severity := if 40 < titleScore then "High"
                   else if 25 < titleScore then "Medium" else "Low"
       score := titleScore
       description := getTitleIssueDescription titleScore title }] else [])
  ++ (if 15 < descScore then
    [{ type := "Description Analysis"
       severity := if 35 < descScore then "High"
                   else if 25 < descScore then "Medium" else "Low"
       score := descScore
       description := getDescriptionIssueDescription descScore description }] else [])
  ++ (if 15 < storyScore then
    [{ type := "Story Analysis"
       severity := if 35 < storyScore then "High"
                   else if 25 < storyScore then "Medium" else "Low"
       score := storyScore
       description := getStoryIssueDescription storyScore story }] else [])
  ++ (if 10 < amountScore then
    [{ type := "Goal Amount"
       severity := if 30 < amountScore then "High"
                   else if 20 < amountScore then "Medium" else "Low"
       score := amountScore
       description := getAmountIssueDescription amountScore goalAmount category }] else [])
  ++ (if 20 < creatorScore then
    [{ type := "Creator History"
       severity := if 40 < creatorScore then "High"
                   else if 30 < creatorScore then "Medium" else "Low"
       score := creatorScore
       description := "Creator shows concerning campaign history or behavioral patterns" }]
    else [])
  ++ (if 10 < patternScore then
    [{ type := "Pattern Analysis"
       severity := if 25 < patternScore then "High"
                   else if 15 < patternScore then "Medium" else "Low"
       score := patternScore
       description := "Campaign shows similarity to other potentially fraudulent campaigns" }]
    else [])

/-- `getDetailedRiskFactors` (lines 691-708); the pattern analyzer is not
consulted here, matching the source. -/
def getDetailedRiskFactors (now : ℚ) (st : StoreState)
    (title description story : String) (goalAmount : ℚ) (category : String) :
    List String :=
  (if 25 < analyzeTitleFraud title then ["High-risk language in title"] else [])
  ++ (if 25 < analyzeDescriptionFraud description then ["Suspicious description content"] else [])
  ++ (if 25 < analyzeStoryFraud story then ["Story authenticity concerns"] else [])
  ++ (if 20 < analyzeAmountFraud goalAmount category then ["Unrealistic funding goal"] else [])
  ++ (if 30 < analyzeCreatorHistory now st.creatorCampaigns
      then ["Concerning creator history"] else [])

/-! ## Entry point (`analyzeCampaign`, source lines 7-36) -/

/-- the campaign record handed to `analyzeCampaign`; the three text fields are
optional because a missing field is what makes the JS pipeline throw (a
`TypeError` inside `toLowerCase`), exercising the catch-all branch. -/
structure CampaignData where
  title : Option String
  description : Option String
  story : Option String
  goalAmount : ℚ
  category : String
deriving DecidableEq

/-- the structured result of one analysis (`fraudScore` is the rounded
integer of line 14). -/
structure FraudAnalysisResult where
  fraudScore : ℤ
  riskLevel : String
  indicators : List Indicator
  riskFactors : List String
  recommendation : String
  needsManualReview : Bool
  autoApprove : Bool
  confidence : String
deriving DecidableEq

/-- reading a required text field; `none` is the missing field whose use
throws inside the analyzers. -/
def requireField : Option String → Except Unit String
  | some s => Except.ok s
  | none => Except.error ()

/-- the `try` block of `analyzeCampaign` (lines 8-22): an `Except.error` is the
exception that the surrounding catch converts to the safe default.  On the
success path `fraudScore` is the rounded composite while every derived field is
computed from the unrounded composite, exactly as in lines 13-22 (JS
`Math.round` is `round` on ℚ: floor of the value plus one half). -/
def analyzeCampaignE (now : ℚ) (st : StoreState) (c : CampaignData) :
    Except Unit FraudAnalysisResult := do
  let title ← requireField c.title
  let description ← requireField c.description
  let story ← requireField c.story
  let fraudScore := calculateFraudScore now st title description story c.goalAmount c.category
  let fraudIndicators := getFraudIndicators now st title description story c.goalAmount c.category
  let riskFactors := getDetailedRiskFactors now st title description story c.goalAmount c.category
  Except.ok
    { fraudScore := round fraudScore
      riskLevel := getRiskLevel fraudScore
      indicators := fraudIndicators
      riskFactors := riskFactors
      recommendation := getRecommendation fraudScore
      needsManualReview := decide (25 ≤ fraudScore)
      autoApprove := decide (fraudScore < 12)
      confidence := getConfidenceLevel fraudScore fraudIndicators.length }

/-- the fixed safe default of the catch branch (lines 25-34). -/
def failureResult : FraudAnalysisResult :=
  { fraudScore := 50
    riskLevel := "Unknown"
    indicators := []
    riskFactors := []
    recommendation := "MANUAL REVIEW REQUIRED - Analysis failed"
    needsManualReview := true
    autoApprove := false
    confidence := "Low" }

/-- `analyzeCampaign` (lines 7-36): the try body with its catch-all.  The
function is total: no failure escapes to the caller. -/
def analyzeCampaign (now : ℚ) (st : StoreState) (c : CampaignData) :
    FraudAnalysisResult :=
  match analyzeCampaignE now st c with
  | Except.ok r => r
  | Except.error _ => failureResult

/-- the no-image composite formula exactly as the specification words it
(weighted sum of the six sub-scores plus base risk 5, amplification 1.3 for at
least three sub-scores above 20 else 1.15 for at least two, floor 35 when
title or description exceeds 30, floor 30 when story exceeds 25 and title or
description exceeds 15, clamp to the interval from 0 to 100).  Stated from the
specification text, to be compared with the aggregation translated from the
source. -/
def specCompositeNoImage (t d s a c p : ℚ) : ℚ :=
  let weighted := t * (25 : ℚ) / 100 + d * (20 : ℚ) / 100 + s * (20 : ℚ) / 100
    + a * (15 : ℚ) / 100 + c * (12 : ℚ) / 100 + p * (8 : ℚ) / 100 + 5
  let sig := ([t, d, s, a, c, p].filter fun x => 20 < x).length
  let amplified := if 3 ≤ sig then weighted * (13 : ℚ) / 10
    else if 2 ≤ sig then weighted * (23 : ℚ) / 20 else weighted
  let floored1 := if 30 < t ∨ 30 < d then jsMax amplified 35 else amplified
  let floored2 := if 25 < s ∧ (15 < t ∨ 15 < d) then jsMax floored1 30 else floored1
  jsMin (jsMax floored2 0) 100

/-! ## Basic bounds on the analyzers -/

theorem titleRawScore_nonneg (f : TitleFeatures) : 0 ≤ titleRawScore f := by
  unfold titleRawScore
  have h1 : (0 : ℚ) ≤ 40 * f.criticalCount := by positivity
  have h2 : (0 : ℚ) ≤ 25 * f.highRiskCount := by positivity
  have h3 : (0 : ℚ) ≤ 18 * f.scamCount := by positivity
  refine add_nonneg (add_nonneg (add_nonneg (add_nonneg (add_nonneg
    (add_nonneg h1 h2) ?_) ?_) ?_) ?_) h3
  · split_ifs <;> norm_num
  · split_ifs <;> norm_num
  · split_ifs <;> norm_num
  · split_ifs <;> norm_num

theorem analyzeTitleFraud_nonneg (t : String) : 0 ≤ analyzeTitleFraud t :=
  le_jsMin (titleRawScore_nonneg _) (by norm_num)

theorem analyzeDescriptionFraud_nonneg (d : String) : 0 ≤ analyzeDescriptionFraud d := by
  simp only [analyzeDescriptionFraud]
  refine le_jsMin ?_ (by norm_num)
  refine add_nonneg (add_nonneg (add_nonneg (add_nonneg (add_nonneg (by positivity)
    (by positivity)) ?_) ?_) ?_) (by positivity)
  · split_ifs <;> norm_num
  · split_ifs <;> norm_num
  · split_ifs <;> norm_num

theorem analyzeStoryFraud_nonneg (s : String) : 0 ≤ analyzeStoryFraud s := by
  simp only [analyzeStoryFraud]
  split
  · norm_num
  · refine le_jsMin ?_ (by norm_num)
    refine add_nonneg (add_nonneg (add_nonneg (add_nonneg (add_nonneg (add_nonneg
      (add_nonneg ?_ ?_) ?_) ?_) (by positivity)) ?_) (by positivity)) ?_
    · split_ifs <;> norm_num
    · split_ifs <;> norm_num
    · split_ifs <;> norm_num
    · split_ifs <;> norm_num
    · split_ifs <;> norm_num
    · split_ifs <;> norm_num

theorem analyzeAmountFraud_nonneg (g : ℚ) (cat : String) : 0 ≤ analyzeAmountFraud g cat := by
  simp only [analyzeAmountFraud]
  refine le_jsMin ?_ (by norm_num)
  refine add_nonneg (add_nonneg (add_nonneg (add_nonneg ?_ ?_) ?_) ?_) ?_
  all_goals split_ifs <;> norm_num

theorem rejectionTerm_nonneg (prev : List PastCampaign) : 0 ≤ rejectionTerm prev := by
  simp only [rejectionTerm]; split_ifs <;> norm_num

theorem frequencyTerm_nonneg (now : ℚ) (prev : List PastCampaign) :
    0 ≤ frequencyTerm now prev := by
  simp only [frequencyTerm]; split_ifs <;> norm_num

theorem completionTerm_nonneg (prev : List PastCampaign) : 0 ≤ completionTerm prev := by
  simp only [completionTerm]; split_ifs <;> norm_num

theorem creatorRepeatBonus_nonneg (prev : List PastCampaign) :
    0 ≤ creatorRepeatBonus prev := by
  simp only [creatorRepeatBonus]; split_ifs <;> norm_num

theorem creatorBaseTerms_nonneg (now : ℚ) (prev : List PastCampaign) :
    0 ≤ creatorBaseTerms now prev :=
  add_nonneg (add_nonneg (rejectionTerm_nonneg _) (frequencyTerm_nonneg _ _))
    (completionTerm_nonneg _)

theorem analyzeCreatorHistory_nonneg (now : ℚ) (q : Option (List PastCampaign)) :
    0 ≤ analyzeCreatorHistory now q := by
  cases q with
  | none => norm_num [analyzeCreatorHistory]
  | some prev =>
    simp only [analyzeCreatorHistory]
    refine le_jsMin ?_ (by norm_num)
    split_ifs
    · norm_num
    · exact add_nonneg (creatorBaseTerms_nonneg _ _) (creatorRepeatBonus_nonneg _)

theorem titleSimLoop_nonneg (cand : List (List Char)) (l : List RecentCampaign) :
    0 ≤ titleSimLoop cand l := by
  induction l with
  | nil => simp [titleSimLoop]
  | cons c rest ih =>
    simp only [titleSimLoop]
    split_ifs with h1 h2
    · norm_num
    · linarith
    · exact ih

theorem descSimLoop_nonneg (cand : List (List Char)) (l : List RecentCampaign) :
    0 ≤ descSimLoop cand l := by
  induction l with
  | nil => simp [descSimLoop]
  | cons c rest ih =>
    simp only [descSimLoop]
    split_ifs with h1 h2
    · norm_num
    · linarith
    · exact ih

theorem clusterTerm_nonneg (g : ℚ) (l : List RecentCampaign) : 0 ≤ clusterTerm g l := by
  simp only [clusterTerm]; split_ifs <;> norm_num

theorem analyzePatterns_nonneg (title description : String) (g : ℚ)
    (q : Option (List RecentCampaign)) : 0 ≤ analyzePatterns title description g q := by
  cases q with
  | none => norm_num [analyzePatterns]
  | some recents =>
    simp only [analyzePatterns]
    refine le_jsMin ?_ (by norm_num)
    exact add_nonneg (add_nonneg (titleSimLoop_nonneg _ _) (descSimLoop_nonneg _ _))
      (clusterTerm_nonneg _ _)

/-! ## Lower bound and shape of the composite -/

theorem five_le_weightedTotal {t d s a c p : ℚ} (ht : 0 ≤ t) (hd : 0 ≤ d) (hs : 0 ≤ s)
    (ha : 0 ≤ a) (hc : 0 ≤ c) (hp : 0 ≤ p) : 5 ≤ weightedTotal t d s a c p := by
  unfold weightedTotal
  have h1 : (0 : ℚ) ≤ t * 25 / 100 := div_nonneg (mul_nonneg ht (by norm_num)) (by norm_num)
  have h2 : (0 : ℚ) ≤ d * 20 / 100 := div_nonneg (mul_nonneg hd (by norm_num)) (by norm_num)
  have h3 : (0 : ℚ) ≤ s * 20 / 100 := div_nonneg (mul_nonneg hs (by norm_num)) (by norm_num)
  have h4 : (0 : ℚ) ≤ a * 15 / 100 := div_nonneg (mul_nonneg ha (by norm_num)) (by norm_num)
  have h5 : (0 : ℚ) ≤ c * 12 / 100 := div_nonneg (mul_nonneg hc (by norm_num)) (by norm_num)
  have h6 : (0 : ℚ) ≤ p * 8 / 100 := div_nonneg (mul_nonneg hp (by norm_num)) (by norm_num)
  linarith

theorem five_le_amplifiedTotal {t d s a c p : ℚ} (h5 : 5 ≤ weightedTotal t d s a c p) :
    5 ≤ amplifiedTotal t d s a c p := by
  unfold amplifiedTotal
  split_ifs <;> linarith

theorem five_le_flooredTotal {t d s a c p : ℚ} (h5 : 5 ≤ amplifiedTotal t d s a c p) :
    5 ≤ flooredTotal t d s a c p := by
  unfold flooredTotal flooredTotal35
  have h30 : (5 : ℚ) ≤ 30 := by norm_num
  have h35 : (5 : ℚ) ≤ 35 := by norm_num
  split_ifs
  · exact le_jsMax_right h30 _
  · exact le_jsMax_right h30 _
  · exact le_jsMax_right h35 _
  · exact h5

theorem five_le_compositeOfSubScores {t d s a c p : ℚ} (ht : 0 ≤ t) (hd : 0 ≤ d)
    (hs : 0 ≤ s) (ha : 0 ≤ a) (hc : 0 ≤ c) (hp : 0 ≤ p) :
    5 ≤ compositeOfSubScores t d s a c p :=
  le_jsMin (five_le_flooredTotal (five_le_amplifiedTotal
    (five_le_weightedTotal ht hd hs ha hc hp))) (by norm_num)

theorem five_le_calculateFraudScore (now : ℚ) (st : StoreState)
    (title description story : String) (goalAmount : ℚ) (category : String) :
    5 ≤ calculateFraudScore now st title description story goalAmount category :=
  five_le_compositeOfSubScores (analyzeTitleFraud_nonneg _)
    (analyzeDescriptionFraud_nonneg _) (analyzeStoryFraud_nonneg _)
    (analyzeAmountFraud_nonneg _ _) (analyzeCreatorHistory_nonneg _ _)
    (analyzePatterns_nonneg _ _ _ _)

theorem compositeOfSubScores_eq_spec {t d s a c p : ℚ} (ht : 0 ≤ t) (hd : 0 ≤ d)
    (hs : 0 ≤ s) (ha : 0 ≤ a) (hc : 0 ≤ c) (hp : 0 ≤ p) :
    compositeOfSubScores t d s a c p = specCompositeNoImage t d s a c p := by
  have h5 : 5 ≤ flooredTotal t d s a c p :=
    five_le_flooredTotal (five_le_amplifiedTotal (five_le_weightedTotal ht hd hs ha hc hp))
  have hrfl : specCompositeNoImage t d s a c p
      = jsMin (jsMax (flooredTotal t d s a c p) 0) 100 := rfl
  rw [hrfl, jsMax_zero_of_nonneg (by linarith)]
  rfl

theorem five_le_round {x : ℚ} (h : 5 ≤ x) : (5 : ℤ) ≤ round x := by
  rw [round_eq, Int.le_floor]
  push_cast
  linarith

theorem getRecommendation_approve {x : ℚ}
    (h : getRecommendation x = "APPROVE - Very low fraud risk") : x < 8 := by
  unfold getRecommendation at h
  split_ifs at h with h1 h2 h3 h4 h5 h6
  · exact absurd h (by decide)
  · exact absurd h (by decide)
  · exact absurd h (by decide)
  · exact absurd h (by decide)
  · exact absurd h (by decide)
  · exact absurd h (by decide)
  · linarith [not_le.mp h6]

set_option maxHeartbeats 1000000 in
/-- the success path of `analyzeCampaign` in closed form: with the three text
fields present, the catch branch is unreachable and every result field is the
corresponding derivation from the unrounded composite score. -/
theorem analyzeCampaign_some (now : ℚ) (st : StoreState)
    (t d s : String) (g : ℚ) (cat : String) :
    analyzeCampaign now st ⟨some t, some d, some s, g, cat⟩ =
      { fraudScore := round (calculateFraudScore now st t d s g cat)
        riskLevel := getRiskLevel (calculateFraudScore now st t d s g cat)
        indicators := getFraudIndicators now st t d s g cat
        riskFactors := getDetailedRiskFactors now st t d s g cat
        recommendation := getRecommendation (calculateFraudScore now st t d s g cat)
        needsManualReview := decide (25 ≤ calculateFraudScore now st t d s g cat)
        autoApprove := decide (calculateFraudScore now st t d s g cat < 12)
        confidence := getConfidenceLevel (calculateFraudScore now st t d s g cat)
            (getFraudIndicators now st t d s g cat).length } := rfl

/-! ## Concrete inputs used by witnesses and counterexamples

The sub-score values quoted in the comments below are forced by the analyzer
definitions and are verified inside the theorems that use them. -/

/-- a fixed clock value `Date.now()`, in milliseconds. -/
def nowT : ℚ := 1700000000000

/-- a benign 109-character description: no flagged phrase or pattern, all
repeated long words distinct, so its sub-score is 0. -/
def descShared : String :=
  "the library roof lost shingles and gutters in storms and this effort funds repairs with skilled local workers"

/-- 330 characters, six sentences, each containing one relative-time word:
six matches of the relative-time regex exceed 5, so sub-score 10. -/
def storyTimeRefs : String :=
  String.join (List.replicate 6 "today the village crew will mend the old library roof. ")

/-- 260 characters, twenty sentences of trimmed length 11: the short-sentence
share 1 exceeds 0.8, so sub-score 15. -/
def storyShortSentences : String :=
  String.join (List.replicate 20 "we fix roof. ")

/-- 366 characters, six long sentences, no flagged signal: sub-score 0. -/
def storyClean : String :=
  String.join (List.replicate 6 "the village crew will mend the old library roof this season. ")

/-- store for the first colliding run: a creator with no history (15) and one
recent campaign whose title shares 2 of min 3 long words (ratio 2/3, +15). -/
def stA : StoreState :=
  ⟨some [], some [⟨"community garden party", "sunny meadow picnic gathering plans", 500⟩]⟩

/-- store for the second colliding run: one benign prior campaign (0) and one
recent campaign whose description shares 3 of min 5 long words (ratio 3/5, +20). -/
def stB : StoreState :=
  ⟨some [⟨"active", nowT - 8640000000, 7777⟩],
   some [⟨"garden help plan", "library shingles gutters jolly pines", 123⟩]⟩

/-- first colliding campaign: sub-scores title 15 (one punctuation run of 3),
description 0, story 10, amount 75, creator 15, pattern 15; composite 25. -/
def campA : CampaignData :=
  ⟨some "community garden roofing drive!!!", some descShared, some storyTimeRefs,
   1000000, "Animal Welfare"⟩

/-- second colliding campaign: sub-scores title 15 (length below 10),
description 0, story 15, amount 75, creator 0, pattern 20; composite 24.6. -/
def campB : CampaignData :=
  ⟨some "roof fund", some descShared, some storyShortSentences, 1000000, "Animal Welfare"⟩

/-- benign store: one benign prior campaign, no recent same-category campaigns. -/
def stZ : StoreState := ⟨some [⟨"active", nowT - 8640000000, 7777⟩], some []⟩

/-- a campaign on which every analyzer returns 0, so the composite is exactly
the base risk 5. -/
def campZ : CampaignData :=
  ⟨some "we are fixing the village library roof", some descShared, some storyClean,
   13570, "Education"⟩

/-- exactly two prior campaigns sharing the goal amount 5000. -/
def pairPrev : List PastCampaign :=
  [⟨"active", nowT - 8640000000, 5000⟩, ⟨"active", nowT - 12960000000, 5000⟩]

/-- three prior campaigns, two of them sharing the goal amount 5000. -/
def triplePrev : List PastCampaign :=
  [⟨"active", nowT - 8640000000, 5000⟩, ⟨"active", nowT - 12960000000, 5000⟩,
   ⟨"active", nowT - 17280000000, 600⟩]

/-- monotonicity witness: a title with no extracted signal at all. -/
def titlePlain : String := "we must get fast to mend the roof"

/-- the same title with one critical phrase in place of two neutral words,
every other extracted feature (length 33, caps, punctuation, keyword and
pattern counts) unchanged. -/
def titleCritical : String := "we must act fast to mend the roof"

/-! ## The claims -/

/-- C1 (counterexample): two successful analyses with equal returned
`fraudScore` (both 25) and equal indicator count (both 2) disagree on
`needsManualReview`, `riskLevel` and `recommendation`: the derived fields are
computed from the unrounded composite (25 versus 24.6), not from the rounded
`fraudScore` field, so they are not functions of the returned score. -/
theorem riskFields_rounded_score_counterexample :
    (analyzeCampaignE nowT stA campA).isOk = true
    ∧ (analyzeCampaignE nowT stB campB).isOk = true
    ∧ (analyzeCampaign nowT stA campA).fraudScore = 25
    ∧ (analyzeCampaign nowT stB campB).fraudScore = 25
    ∧ (analyzeCampaign nowT stA campA).indicators.length = 2
    ∧ (analyzeCampaign nowT stB campB).indicators.length = 2
    ∧ (analyzeCampaign nowT stA campA).needsManualReview = true
    ∧ (analyzeCampaign nowT stB campB).needsManualReview = false
    ∧ (analyzeCampaign nowT stA campA).riskLevel = "High"
    ∧ (analyzeCampaign nowT stB campB).riskLevel = "Medium"
    ∧ (analyzeCampaign nowT stA campA).recommendation
        = "MANUAL REVIEW REQUIRED - High risk factors present"
    ∧ (analyzeCampaign nowT stB campB).recommendation
        = "DETAILED REVIEW RECOMMENDED - Medium risk detected" := by
  with_unfolding_all decide

/-- C1 (amended): riskLevel, recommendation, needsManualReview, autoApprove and
confidence are pure deterministic functions of the unrounded composite score
(and of the indicator count, for confidence): any two successful results with
equal composite score and equal indicator count agree on all five fields.  The
returned `fraudScore` is the composite rounded, and equality of the rounded
field does not suffice. -/
theorem riskFields_determined_by_composite_and_count
    (now1 now2 : ℚ) (st1 st2 : StoreState) (t1 d1 s1 : String) (g1 : ℚ) (cat1 : String)
    (t2 d2 s2 : String) (g2 : ℚ) (cat2 : String)
    (hscore : calculateFraudScore now1 st1 t1 d1 s1 g1 cat1
      = calculateFraudScore now2 st2 t2 d2 s2 g2 cat2)
    (hcount : (getFraudIndicators now1 st1 t1 d1 s1 g1 cat1).length
      = (getFraudIndicators now2 st2 t2 d2 s2 g2 cat2).length) :
    (analyzeCampaign now1 st1 ⟨some t1, some d1, some s1, g1, cat1⟩).riskLevel
      = (analyzeCampaign now2 st2 ⟨some t2, some d2, some s2, g2, cat2⟩).riskLevel
    ∧ (analyzeCampaign now1 st1 ⟨some t1, some d1, some s1, g1, cat1⟩).recommendation
      = (analyzeCampaign now2 st2 ⟨some t2, some d2, some s2, g2, cat2⟩).recommendation
    ∧ (analyzeCampaign now1 st1 ⟨some t1, some d1, some s1, g1, cat1⟩).needsManualReview
      = (analyzeCampaign now2 st2 ⟨some t2, some d2, some s2, g2, cat2⟩).needsManualReview
    ∧ (analyzeCampaign now1 st1 ⟨some t1, some d1, some s1, g1, cat1⟩).autoApprove
      = (analyzeCampaign now2 st2 ⟨some t2, some d2, some s2, g2, cat2⟩).autoApprove
    ∧ (analyzeCampaign now1 st1 ⟨some t1, some d1, some s1, g1, cat1⟩).confidence
      = (analyzeCampaign now2 st2 ⟨some t2, some d2, some s2, g2, cat2⟩).confidence := by
  refine ⟨?_, ?_, ?_, ?_, ?_⟩ <;>
    simp only [analyzeCampaign_some, hscore, hcount]

/-- C1 (witness): the amended theorem applied at a concrete successful input
(equal composite and indicator count discharged definitionally). -/
theorem riskFields_determined_witness :
    (analyzeCampaign nowT stA campA).riskLevel = (analyzeCampaign nowT stA campA).riskLevel
    ∧ (analyzeCampaign nowT stA campA).recommendation
      = (analyzeCampaign nowT stA campA).recommendation
    ∧ (analyzeCampaign nowT stA campA).needsManualReview
      = (analyzeCampaign nowT stA campA).needsManualReview
    ∧ (analyzeCampaign nowT stA campA).autoApprove
      = (analyzeCampaign nowT stA campA).autoApprove
    ∧ (analyzeCampaign nowT stA campA).confidence
      = (analyzeCampaign nowT stA campA).confidence :=
  riskFields_determined_by_composite_and_count nowT nowT stA stA
    "community garden roofing drive!!!" descShared storyTimeRefs 1000000 "Animal Welfare"
    "community garden roofing drive!!!" descShared storyTimeRefs 1000000 "Animal Welfare"
    rfl rfl

/-- C2: whenever the analysis throws (here: a missing text field), the
exception is caught and the call returns the fixed safe default: score 50,
riskLevel Unknown, empty indicators and risk factors, the failure
recommendation, manual review required, no auto-approval, low confidence. -/
theorem analyzeCampaign_failure_default (now : ℚ) (st : StoreState) (c : CampaignData)
    (e : Unit) (h : analyzeCampaignE now st c = Except.error e) :
    analyzeCampaign now st c =
      { fraudScore := 50, riskLevel := "Unknown", indicators := [], riskFactors := []
        recommendation := "MANUAL REVIEW REQUIRED - Analysis failed"
        needsManualReview := true, autoApprove := false, confidence := "Low" } := by
  unfold analyzeCampaign
  rw [h]
  rfl

/-- C2 (witness): a campaign with a missing title takes the failure path and
returns exactly the safe default. -/
theorem analyzeCampaign_failure_default_witness :
    analyzeCampaignE nowT stZ ⟨none, some descShared, some storyClean, 5, "Arts"⟩
      = Except.error ()
    ∧ analyzeCampaign nowT stZ ⟨none, some descShared, some storyClean, 5, "Arts"⟩ =
      { fraudScore := 50, riskLevel := "Unknown", indicators := [], riskFactors := []
        recommendation := "MANUAL REVIEW REQUIRED - Analysis failed"
        needsManualReview := true, autoApprove := false, confidence := "Low" } :=
  ⟨rfl, analyzeCampaign_failure_default nowT stZ _ () rfl⟩

/-- C3: the composite equals the specification formula applied to the six
sub-scores (weights 0.25 / 0.20 / 0.20 / 0.15 / 0.12 / 0.08, base risk 5,
amplification 1.3 or 1.15, floors 35 and 30, clamp to the interval from 0 to
100), and analyzeCampaign reports it rounded to the nearest integer. -/
theorem calculateFraudScore_matches_spec_formula (now : ℚ) (st : StoreState)
    (title description story : String) (goalAmount : ℚ) (category : String) :
    calculateFraudScore now st title description story goalAmount category
      = specCompositeNoImage (analyzeTitleFraud title) (analyzeDescriptionFraud description)
          (analyzeStoryFraud story) (analyzeAmountFraud goalAmount category)
          (analyzeCreatorHistory now st.creatorCampaigns)
          (analyzePatterns title description goalAmount st.recentCampaigns)
    ∧ (analyzeCampaign now st
        ⟨some title, some description, some story, goalAmount, category⟩).fraudScore
      = round (calculateFraudScore now st title description story goalAmount category) := by
  constructor
  · exact compositeOfSubScores_eq_spec (analyzeTitleFraud_nonneg _)
      (analyzeDescriptionFraud_nonneg _) (analyzeStoryFraud_nonneg _)
      (analyzeAmountFraud_nonneg _ _) (analyzeCreatorHistory_nonneg _ _)
      (analyzePatterns_nonneg _ _ _ _)
  · rw [analyzeCampaign_some]

/-- C4 (counterexample): a creator with exactly two prior campaigns sharing the
identical goal amount 5000 receives no +15 contribution: the sub-score is 0,
because the source gates the repeated-amounts bonus on more than two returned
campaigns. -/
theorem repeated_amounts_pair_counterexample :
    2 ≤ ((pairPrev.map (·.goalAmount)).filter fun x => x == (5000 : ℚ)).length
    ∧ creatorRepeatBonus pairPrev = 0
    ∧ analyzeCreatorHistory nowT (some pairPrev) = 0 :=
  ⟨by decide, by with_unfolding_all decide, by with_unfolding_all decide⟩

/-- C4 (amended): when the creator has more than 2 campaigns in the window and
at least 2 of them share an identical goal amount, the repeated-amounts bonus
is exactly 15 and the sub-score is the clamp of the remaining additions plus
15; with 2 or fewer campaigns the bonus is skipped even when amounts repeat. -/
theorem repeated_amounts_bonus_amended (now : ℚ) (prev : List PastCampaign)
    (hlen : 2 < prev.length) (a : ℚ)
    (ha : 2 ≤ ((prev.map (·.goalAmount)).filter fun x => x == a).length) :
    creatorRepeatBonus prev = 15
    ∧ analyzeCreatorHistory now (some prev)
      = jsMin (creatorBaseTerms now prev + 15) 100 := by
  have hsame : 1 < ((prev.map (·.goalAmount)).filter fun amount =>
      1 < ((prev.map (·.goalAmount)).filter fun x => x == amount).length).length := by
    have hmono : ((prev.map (·.goalAmount)).filter fun x => x == a).length ≤
        ((prev.map (·.goalAmount)).filter fun amount =>
          1 < ((prev.map (·.goalAmount)).filter fun x => x == amount).length).length := by
      rw [← List.countP_eq_length_filter, ← List.countP_eq_length_filter]
      apply List.countP_mono_left
      intro x hx hxa
      have hxeq : x = a := by simpa using hxa
      subst hxeq
      simpa [List.countP_eq_length_filter] using lt_of_lt_of_le (by norm_num) ha
    omega
  have hbonus : creatorRepeatBonus prev = 15 := by
    simp only [creatorRepeatBonus]
    rw [if_pos ⟨hlen, hsame⟩]
  refine ⟨hbonus, ?_⟩
  simp only [analyzeCreatorHistory]
  rw [if_neg (by omega : ¬ prev.length = 0), hbonus]

/-- C4 (witness): three prior campaigns, two sharing the amount 5000; the
other terms contribute 10 (completion rate 0 of 3 fundable), so the sub-score
is 25 = min (10 + 15) 100. -/
theorem repeated_amounts_bonus_amended_witness :
    2 < triplePrev.length
    ∧ 2 ≤ ((triplePrev.map (·.goalAmount)).filter fun x => x == (5000 : ℚ)).length
    ∧ (creatorRepeatBonus triplePrev = 15
       ∧ analyzeCreatorHistory nowT (some triplePrev)
          = jsMin (creatorBaseTerms nowT triplePrev + 15) 100) :=
  ⟨by decide, by decide,
   repeated_amounts_bonus_amended nowT triplePrev (by decide) 5000 (by decide)⟩

/-- C5: a failed creator-history store query produces exactly the fallback
sub-score 20 instead of an exception, and an analyzeCampaign call in which the
query fails still completes its success path (a full structured result, no
exception) whenever the text fields are present. -/
theorem creator_store_failure_fallback (now : ℚ) (pq : Option (List RecentCampaign))
    (title description story : String) (goalAmount : ℚ) (category : String) :
    analyzeCreatorHistory now none = 20
    ∧ (analyzeCampaignE now ⟨none, pq⟩
        ⟨some title, some description, some story, goalAmount, category⟩).isOk = true :=
  ⟨rfl, rfl⟩

/-- C6: when splitting the story on the sentence terminators yields no
nonempty sentence, the analyzer returns the fixed sub-score 50 before any
division by the sentence count. -/
theorem story_no_sentences_returns_50 (story : String) (h : storySentences story = []) :
    analyzeStoryFraud story = 50 := by
  simp only [analyzeStoryFraud, h, List.length_nil, if_pos]

/-- C6 (witness): the empty story has no sentences and scores exactly 50. -/
theorem story_no_sentences_witness :
    storySentences "" = [] ∧ analyzeStoryFraud "" = 50 :=
  ⟨by with_unfolding_all decide,
   story_no_sentences_returns_50 "" (by with_unfolding_all decide)⟩

/-- auxiliary monotonicity: the title arithmetic is monotone in the
critical-keyword count when every other feature is fixed. -/
theorem titleRawScore_mono_critical {f g : TitleFeatures}
    (h1 : f.highRiskCount = g.highRiskCount) (h2 : f.emotionalCount = g.emotionalCount)
    (h3 : f.capsCount = g.capsCount) (h4 : f.length = g.length)
    (h5 : f.tripleRunCount = g.tripleRunCount) (h6 : f.doublePairCount = g.doublePairCount)
    (h7 : f.scamCount = g.scamCount) (hc : f.criticalCount ≤ g.criticalCount) :
    titleRawScore f ≤ titleRawScore g := by
  unfold titleRawScore
  rw [h1, h2, h3, h4, h5, h6, h7]
  have hmul : (40 : ℚ) * f.criticalCount ≤ 40 * g.criticalCount := by
    have : (f.criticalCount : ℚ) ≤ g.criticalCount := by exact_mod_cast hc
    linarith
  linarith

/-- C7: holding every other extracted feature of the title fixed (length,
capitalization, punctuation runs, emotional, high-risk and scam-pattern
counts), increasing the number of critical fraud keywords present never
decreases the title sub-score. -/
theorem title_critical_keywords_monotone (t u : String)
    (h1 : (extractTitleFeatures t).highRiskCount = (extractTitleFeatures u).highRiskCount)
    (h2 : (extractTitleFeatures t).emotionalCount = (extractTitleFeatures u).emotionalCount)
    (h3 : (extractTitleFeatures t).capsCount = (extractTitleFeatures u).capsCount)
    (h4 : (extractTitleFeatures t).length = (extractTitleFeatures u).length)
    (h5 : (extractTitleFeatures t).tripleRunCount = (extractTitleFeatures u).tripleRunCount)
    (h6 : (extractTitleFeatures t).doublePairCount = (extractTitleFeatures u).doublePairCount)
    (h7 : (extractTitleFeatures t).scamCount = (extractTitleFeatures u).scamCount)
    (hc : (extractTitleFeatures t).criticalCount ≤ (extractTitleFeatures u).criticalCount) :
    analyzeTitleFraud t ≤ analyzeTitleFraud u := by
  unfold analyzeTitleFraud
  rw [jsMin_eq_min, jsMin_eq_min]
  exact min_le_min (titleRawScore_mono_critical h1 h2 h3 h4 h5 h6 h7 hc) le_rfl

/-- C7 (witness): the monotonicity theorem applied to two concrete titles that
agree on every extracted feature except the critical-keyword count (0 versus
1, adding the phrase act fast); the sub-score rises from 0 to 40. -/
theorem title_critical_keywords_monotone_witness :
    (extractTitleFeatures titlePlain).criticalCount = 0
    ∧ (extractTitleFeatures titleCritical).criticalCount = 1
    ∧ analyzeTitleFraud titlePlain ≤ analyzeTitleFraud titleCritical :=
  ⟨by with_unfolding_all decide, by with_unfolding_all decide,
   title_critical_keywords_monotone titlePlain titleCritical
     (by with_unfolding_all decide) (by with_unfolding_all decide)
     (by with_unfolding_all decide) (by with_unfolding_all decide)
     (by with_unfolding_all decide) (by with_unfolding_all decide)
     (by with_unfolding_all decide) (by with_unfolding_all decide)⟩

/-- C8: analyzeCampaign is deterministic: with the clock, the store responses
and the campaign snapshot held fixed, two invocations return identical results
in every field.  In this embedding the entry point is a pure function of
exactly these three inputs (the only effects in the source are the store
queries and the clock reads, both captured in the arguments), so determinism
is congruence. -/
theorem analyzeCampaign_deterministic (now1 now2 : ℚ) (st1 st2 : StoreState)
    (c1 c2 : CampaignData) (hn : now1 = now2) (hst : st1 = st2) (hc : c1 = c2) :
    analyzeCampaign now1 st1 c1 = analyzeCampaign now2 st2 c2 := by
  rw [hn, hst, hc]

/-- C8 (witness): the determinism theorem at a concrete input. -/
theorem analyzeCampaign_deterministic_witness :
    analyzeCampaign nowT stZ campZ = analyzeCampaign nowT stZ campZ :=
  analyzeCampaign_deterministic nowT nowT stZ stZ campZ campZ rfl rfl rfl

/-- C9: every composite the aggregation can produce is at least 5 (each
weighted sub-score contribution is nonnegative, the base risk 5 is always
added, amplification and floors only increase the total), hence every
successful result has fraudScore at least 5; and the APPROVE recommendation is
produced exactly for composite scores below 8, so only on the interval from 5
inclusive to 8 exclusive. -/
theorem composite_score_lower_bound (now : ℚ) (st : StoreState)
    (title description story : String) (goalAmount : ℚ) (category : String) :
    5 ≤ calculateFraudScore now st title description story goalAmount category
    ∧ (5 : ℤ) ≤ (analyzeCampaign now st
        ⟨some title, some description, some story, goalAmount, category⟩).fraudScore
    ∧ ((analyzeCampaign now st
        ⟨some title, some description, some story, goalAmount, category⟩).recommendation
          = "APPROVE - Very low fraud risk" →
       calculateFraudScore now st title description story goalAmount category < 8) := by
  refine ⟨five_le_calculateFraudScore now st title description story goalAmount category,
    ?_, ?_⟩
  · rw [analyzeCampaign_some]
    exact five_le_round
      (five_le_calculateFraudScore now st title description story goalAmount category)
  · rw [analyzeCampaign_some]
    intro h
    exact getRecommendation_approve h

/-- C9 (witness): the all-benign campaign reaches APPROVE and its composite is
exactly the base risk 5, inside the interval from 5 to 8. -/
theorem composite_score_lower_bound_witness :
    (analyzeCampaign nowT stZ campZ).recommendation = "APPROVE - Very low fraud risk"
    ∧ calculateFraudScore nowT stZ "we are fixing the village library roof" descShared
        storyClean 13570 "Education" < 8 :=
  ⟨by with_unfolding_all decide,
   (composite_score_lower_bound nowT stZ "we are fixing the village library roof"
      descShared storyClean 13570 "Education").2.2 (by with_unfolding_all decide)⟩

/-- C10: in every result analyzeCampaign returns, on the success path and on
the failure path alike, needsManualReview and autoApprove are never both true:
success sets them from the same composite (at least 25 versus below 12), and
the failure default fixes them to true and false. -/
theorem manualReview_autoApprove_exclusive (now : ℚ) (st : StoreState) (c : CampaignData) :
    ((analyzeCampaign now st c).needsManualReview
      && (analyzeCampaign now st c).autoApprove) = false := by
  obtain ⟨t, d, s, g, cat⟩ := c
  cases t with
  | none => rfl
  | some t =>
    cases d with
    | none => rfl
    | some d =>
      cases s with
      | none => rfl
      | some s =>
        rw [analyzeCampaign_some]
        rcases le_or_lt 25 (calculateFraudScore now st t d s g cat) with h | h
        · have h2 : ¬ calculateFraudScore now st t d s g cat < 12 := by linarith
          simp [h, h2]
        · have h1 : ¬ 25 ≤ calculateFraudScore now st t d s g cat := by linarith
          simp [h1]

end FundSure
